import Mathlib

/-!
Verification development for the FortiTwin interview engine
(`app/interview_engine.py`).

The engine's externally supplied collaborators (the Gemini client, the
emotion-signal providers from `emotion_engine`, the event-impact
normalizer from `security_events`, and the standard-library JSON
decoder) are modelled as parameters of the embedded functions.  Python
floating-point values are modelled as rationals (`Rat`): every claim
about them only compares against the literal thresholds, for which
rational order agrees with the order on the floats involved.  The
textual rendering of a Python `dict`/`list` inside an f-string (never
inspected by any claim) is given by an explicit rendering function.
-/

namespace FortiTwin

/-- Python truthiness of a string: `if s:` holds iff `s` is non-empty. -/
def pyTruthy (s : String) : Bool := s != ""

/-- Python truthiness of an `Optional[str]`: `None` and `""` are falsy. -/
def pyTruthyOpt : Option String → Bool
  | none => false
  | some s => s != ""

/-- Characters removed by Python `str.strip()` (ASCII whitespace). -/
def pyIsSpace (c : Char) : Bool :=
  c == ' ' || c == '\t' || c == '\n' || c == '\r' || c == '\x0b' || c == '\x0c'

/-- Python `str.strip()`: drop leading and trailing whitespace. -/
def pyStrip (s : String) : String :=
  ⟨((s.data.dropWhile pyIsSpace).reverse.dropWhile pyIsSpace).reverse⟩

/-- An emotion context: Python `Dict[str, float]`, insertion-ordered. -/
abbrev EmotionCtx := List (String × Rat)

/-- Python `dict.get(k, d)` on an emotion context. -/
def ecGet (d : EmotionCtx) (k : String) (dflt : Rat) : Rat :=
  (d.lookup k).getD dflt

/-- Rendering of an emotion context inside an f-string; the decimal
rendering of the float values is abstracted by the rational's own
rendering (no claim inspects this text). -/
def pyDictRepr (d : EmotionCtx) : String :=
  "\x7b" ++ String.intercalate ", "
    (d.map (fun kv => "\x27" ++ kv.1 ++ "\x27: " ++ toString kv.2)) ++ "\x7d"

/-- A transcript entry: Python `Dict[str, str]`. -/
abbrev TranscriptEntry := List (String × String)

/-- Rendering of `{transcript}` (a Python `List[Dict[str, str]]`) inside
an f-string; string escaping is abstracted (no claim inspects this text). -/
def pyTranscriptRepr (t : List TranscriptEntry) : String :=
  "[" ++ String.intercalate ", "
    (t.map (fun d => "\x7b" ++ String.intercalate ", "
      (d.map (fun kv => "\x27" ++ kv.1 ++ "\x27: \x27" ++ kv.2 ++ "\x27")) ++ "\x7d")) ++ "]"

/-- A personality preset: `dict(tone=..., difficulty=...)`. -/
structure Persona where
  tone : String
  difficulty : String
deriving DecidableEq

/-- The preset stored under `"Default Manager"`. -/
def defaultManagerPreset : Persona := ⟨"professional", "medium"⟩

/-- `PERSONALITY_PRESETS` from `interview_engine.py`. -/
def PERSONALITY_PRESETS : List (String × Persona) :=
  [("Default Manager", defaultManagerPreset),
   ("Startup CTO", ⟨"direct", "high"⟩),
   ("FAANG Manager", ⟨"structured", "high"⟩),
   ("Finance Recruiter", ⟨"formal", "medium"⟩)]

/-- `InterviewEngine._persona`: exact lookup, else the default preset. -/
def persona (personality : String) : Persona :=
  match PERSONALITY_PRESETS.lookup personality with
  | some v => v
  | none => defaultManagerPreset

/-- JSON values, the result type of the scoring path. -/
inductive Json where
  | null : Json
  | bool : Bool → Json
  | num : Rat → Json
  | str : String → Json
  | arr : List Json → Json
  | obj : List (String × Json) → Json

/-- Engine state fixed at construction: `self.mode` (a Python string)
and whether `self.client` is a (truthy) client object. -/
structure Engine where
  mode : String
  hasClient : Bool

/-- `InterviewEngine.__init__`, parametrized by the `GEMINI_API_KEY`
environment value and by whether the Gemini client construction
succeeds (the external `genai` calls may raise). -/
def initEngine (key : Option String) (initClient : Except String Unit) : Engine :=
  if pyTruthyOpt key then
    match initClient with
    | Except.ok _ => ⟨"gemini", true⟩
    | Except.error _ => ⟨"offline", false⟩
  else ⟨"offline", false⟩

/-- `InterviewEngine._llm_call`, parametrized by the external remote
generation capability `gen` (covering `generate_content` and the
`.text` access; an exception anywhere in the guarded block is an
`Except.error`). -/
def llm_call (e : Engine) (gen : String → Except String String)
    (system user : String) : String :=
  if e.mode == "gemini" && e.hasClient then
    match gen (system ++ "\n\n" ++ user) with
    | Except.ok t => pyStrip t
    | Except.error _ => ""
  else ""

/-- `InterviewEngine._emotion_ctx`, parametrized by the two
emotion-signal providers (from `emotion_engine`, external to the core). -/
def emotion_ctx_of (primary fallback : String → EmotionCtx)
    (session_id : String) : EmotionCtx :=
  let sig := primary session_id
  if sig = [] then fallback session_id else sig

/-- The three closing questions of `InterviewEngine._offline_question`. -/
def deepDiveClose : String :=
  "Can you dive deeper into your last answer and describe a concrete example with outcomes?"

/-- Closing question used when no prior answer but retrieval context exists. -/
def matchRoleClose : String :=
  "What experience do you have that directly matches this role? Refer to relevant projects."

/-- The generic "challenging project" opener. -/
def challengingClose : String :=
  "Tell me about a challenging project you led end-to-end."

/-- `InterviewEngine._offline_question`. -/
def offline_question (job_title : String) (p : Persona) (rag_context : String)
    (prev_answer : Option String) (emotion_ctx : EmotionCtx)
    (security_hint : Option String) : String :=
  let base := "As a " ++ p.tone ++ " interviewer for a " ++ job_title ++ ", "
  let base := if pyTruthyOpt security_hint then
      base ++ "I noticed a potential distraction (" ++ security_hint.getD "" ++
        "). Please stay focused. "
    else base
  let base := if ecGet emotion_ctx "nervous" 0 > (1/2 : Rat) then
      base ++ "I\x27ll keep it supportive. "
    else base
  if pyTruthyOpt prev_answer then base ++ deepDiveClose
  else if pyTruthy rag_context then base ++ matchRoleClose
  else base ++ challengingClose

/-- The fixed system instruction of `_generate_question`. -/
def questionSystemText : String :=
  "You are an empathetic, professional AI interviewer. " ++
  "Ask one concise question at a time. Adjust tone/difficulty based on signals. " ++
  "If \x27security_hint\x27 is present, remind the candidate to focus in a respectful way."

/-- The user text assembled by `_generate_question` (`user_parts` then
`"\n\n".join`), translated clause by clause from the source. -/
def user_text (job_title company : String) (p : Persona) (rag_context : String)
    (prev_answer : Option String) (emotion_ctx : EmotionCtx)
    (security_hint : Option String) : String :=
  let parts : List String :=
    ["Job Title: " ++ job_title ++ " at " ++ company ++ ".",
     "Personality: tone=" ++ p.tone ++ ", difficulty=" ++ p.difficulty ++ "."]
  let parts := if pyTruthy rag_context then
      parts ++ ["Company/Role Context:\n" ++ rag_context.take 2000]
    else parts
  let parts := if pyTruthyOpt prev_answer then
      parts ++ ["Candidate previous answer:\n" ++ prev_answer.getD ""]
    else parts
  let parts := if emotion_ctx ≠ [] then
      parts ++ ["Emotion signals: " ++ pyDictRepr emotion_ctx]
    else parts
  let parts := if pyTruthyOpt security_hint then
      parts ++ ["Security hint: " ++ security_hint.getD ""]
    else parts
  let parts := parts ++ ["Now produce ONE next interview question, natural and specific."]
  String.intercalate "\n\n" parts

/-- `InterviewEngine._generate_question`. -/
def generate_question (e : Engine) (gen : String → Except String String)
    (job_title company personality rag_context : String)
    (prev_answer : Option String) (emotion_ctx : EmotionCtx)
    (security_hint : Option String) : String :=
  let p := persona personality
  let prompt := user_text job_title company p rag_context prev_answer emotion_ctx security_hint
  let out := llm_call e gen questionSystemText prompt
  if pyTruthy out then out
  else offline_question job_title p rag_context prev_answer emotion_ctx security_hint

/-- `InterviewEngine.first_question`, with the emotion providers passed
through from construction. -/
def first_question (e : Engine) (gen : String → Except String String)
    (primary fallback : String → EmotionCtx)
    (job_title company personality rag_context : String) : String :=
  generate_question e gen job_title company personality rag_context
    none (emotion_ctx_of primary fallback "seed") none

/-- `InterviewEngine.next_question`. -/
def next_question (e : Engine) (gen : String → Except String String)
    (job_title company personality rag_context : String)
    (prev_answer : String) (emotion_ctx : EmotionCtx)
    (security_hint : Option String) : String :=
  generate_question e gen job_title company personality rag_context
    (some prev_answer) emotion_ctx security_hint

/-- The fixed system instruction of `score`. -/
def scoreSystemText : String :=
  "You are a fair, unbiased evaluator. Return strict JSON only."

/-- The user text of `score` (an f-string embedding the transcript). -/
def score_user_text (transcript : List TranscriptEntry)
    (job_title company : String) : String :=
  "Evaluate this interview for a " ++ job_title ++ " at " ++ company ++
  ".\nTranscript:\n" ++ pyTranscriptRepr transcript ++
  "\n\nReturn JSON with fields: Role Fit (0-10), Culture Fit (0-10), Honesty (0-10), Communication (0-10), Notes (string)."

/-- The fixed baseline score returned by the offline fallback of `score`. -/
def baselineScore : Json :=
  Json.obj
    [("Role Fit", Json.num 7),
     ("Culture Fit", Json.num 7),
     ("Honesty", Json.num 7),
     ("Communication", Json.num 7),
     ("Notes", Json.str "Baseline offline scoring. Provide GEMINI_API_KEY for smarter evaluation.")]

/-- `InterviewEngine.score`, parametrized by the external JSON decoder
`jsonLoads` (`json.loads`; `none` models a raised parse error). -/
def score (e : Engine) (gen : String → Except String String)
    (jsonLoads : String → Option Json)
    (transcript : List TranscriptEntry) (job_title company : String) : Json :=
  let raw := llm_call e gen scoreSystemText (score_user_text transcript job_title company)
  if pyTruthy raw then
    match jsonLoads raw with
    | some v => v
    | none => baselineScore
  else baselineScore

/-- Metadata map of a security event (contents opaque to the engine). -/
abbrev Metadata := List (String × String)

/-- `InterviewEngine.security_hint_from_event`, parametrized by the
external impact normalizer `normalize_event` (from `security_events`). -/
def security_hint_from_event (normalize_event : String → Metadata → Rat)
    (event_type : String) (metadata : Metadata) : String :=
  let impact := normalize_event event_type metadata
  if impact > (3/4 : Rat) then event_type ++ " (high impact)"
  else if impact > (9/20 : Rat) then event_type ++ " (moderate impact)"
  else event_type ++ " (low impact)"

/-- The closing question selected by `_offline_question`, written as the
spec's priority rule (prior answer, else retrieval context, else generic). -/
def closingFor (prev_answer : Option String) (rag_context : String) : String :=
  if pyTruthyOpt prev_answer then deepDiveClose
  else if pyTruthy rag_context then matchRoleClose
  else challengingClose

/-- The opening part of `_offline_question` (everything before the
closing question): greeting, optional refocusing remark, optional
supportive remark. -/
def offlineBase (job_title : String) (p : Persona) (emotion_ctx : EmotionCtx)
    (security_hint : Option String) : String :=
  let base := "As a " ++ p.tone ++ " interviewer for a " ++ job_title ++ ", "
  let base := if pyTruthyOpt security_hint then
      base ++ "I noticed a potential distraction (" ++ security_hint.getD "" ++
        "). Please stay focused. "
    else base
  if ecGet emotion_ctx "nervous" 0 > (1/2 : Rat) then
    base ++ "I\x27ll keep it supportive. "
  else base

/-- Modelled from the spec: the user text is assembled from exactly the
present fields, in this order — job/company line; persona line;
retrieval context truncated to 2000 characters (omitted when empty);
prior answer (omitted when absent); emotion context (omitted when
empty); security hint (omitted when absent); closing instruction.
Compared against `user_text` (the source's assembly) in claim C6. -/
def spec_user_parts (job_title company : String) (p : Persona) (rag_context : String)
    (prev_answer : Option String) (emotion_ctx : EmotionCtx)
    (security_hint : Option String) : List String :=
  ["Job Title: " ++ job_title ++ " at " ++ company ++ ".",
   "Personality: tone=" ++ p.tone ++ ", difficulty=" ++ p.difficulty ++ "."] ++
  (if pyTruthy rag_context then ["Company/Role Context:\n" ++ rag_context.take 2000] else []) ++
  (if pyTruthyOpt prev_answer then ["Candidate previous answer:\n" ++ prev_answer.getD ""] else []) ++
  (if emotion_ctx ≠ [] then ["Emotion signals: " ++ pyDictRepr emotion_ctx] else []) ++
  (if pyTruthyOpt security_hint then ["Security hint: " ++ security_hint.getD ""] else []) ++
  ["Now produce ONE next interview question, natural and specific."]

/-! ## Helper lemmas -/

/-- If a list equation ends in two blocks and the right block is no
longer than the other side's right block, it is a suffix of it. -/
theorem suffix_of_append_eq {b b' c c' : List Char} (h : b ++ c = b' ++ c')
    (hl : c.length ≤ c'.length) : c <:+ c' := by
  have hlen : b'.length ≤ b.length := by
    have hlb := congrArg List.length h
    simp only [List.length_append] at hlb
    omega
  refine ⟨b.drop b'.length, ?_⟩
  have h2 : (b.take b'.length ++ (b.drop b'.length ++ c)) = b' ++ c' := by
    rw [← List.append_assoc, List.take_append_drop]
    exact h
  have h3 := congrArg (List.drop b'.length) h2
  rw [List.drop_left' (by rw [List.length_take]; omega), List.drop_left] at h3
  exact h3

/-- `dropWhile` empties a list all of whose elements satisfy the predicate. -/
theorem dropWhile_eq_nil_of_all {p : Char → Bool} {l : List Char}
    (h : ∀ x ∈ l, p x = true) : l.dropWhile p = [] := by
  induction l with
  | nil => rfl
  | cons c cs ih =>
    rw [List.dropWhile_cons_of_pos (h c (by simp))]
    exact ih (fun x hx => h x (by simp [hx]))

/-- `str.strip()` of an all-whitespace string is empty. -/
theorem pyStrip_eq_empty {s : String} (h : s.data.all pyIsSpace = true) :
    pyStrip s = "" := by
  have h1 : s.data.dropWhile pyIsSpace = [] :=
    dropWhile_eq_nil_of_all (fun x hx => List.all_eq_true.mp h x hx)
  unfold pyStrip
  rw [h1]
  rfl

/-- `_offline_question` is its opening part followed by the selected closing. -/
theorem offline_question_eq (job_title : String) (p : Persona) (rag_context : String)
    (prev_answer : Option String) (emotion_ctx : EmotionCtx)
    (security_hint : Option String) :
    offline_question job_title p rag_context prev_answer emotion_ctx security_hint =
      offlineBase job_title p emotion_ctx security_hint ++ closingFor prev_answer rag_context := by
  unfold offline_question offlineBase closingFor
  by_cases h1 : pyTruthyOpt security_hint = true <;>
    by_cases h2 : ecGet emotion_ctx "nervous" 0 > (1/2 : Rat) <;>
    by_cases h3 : pyTruthyOpt prev_answer = true <;>
    by_cases h4 : pyTruthy rag_context = true <;>
    simp [h1, h2, h3, h4, String.append_assoc]

/-- The selected closing is one of the three closing questions. -/
theorem closingFor_mem (prev_answer : Option String) (rag_context : String) :
    closingFor prev_answer rag_context ∈ [deepDiveClose, matchRoleClose, challengingClose] := by
  unfold closingFor
  split_ifs <;> simp

/-- Among the three closing questions, a common right block of an
append equation forces equality of the closings. -/
theorem close_unique {b b' c c' : String}
    (hc : c ∈ [deepDiveClose, matchRoleClose, challengingClose])
    (hc' : c' ∈ [deepDiveClose, matchRoleClose, challengingClose])
    (h : b ++ c = b' ++ c') : c = c' := by
  have hd := congrArg String.data h
  simp only [String.data_append] at hd
  fin_cases hc <;> fin_cases hc' <;>
    first
      | rfl
      | exact absurd ( List.isSuffixOf_iff_suffix.mpr (suffix_of_append_eq hd (by decide)))
          (by decide)
      | exact absurd ( List.isSuffixOf_iff_suffix.mpr (suffix_of_append_eq hd.symm (by decide)))
          (by decide)

/-- Appending on the left of a string is cancellative. -/
theorem string_append_cancel_left {e a b : String} (h : e ++ a = e ++ b) : a = b := by
  apply String.ext
  have h2 := congrArg String.data h
  simpa [String.data_append] using h2

/-- `security_hint_from_event` written as one append of a bucket suffix. -/
theorem shfe_eq (normalize : String → Metadata → Rat) (e : String) (m : Metadata) :
    security_hint_from_event normalize e m =
      e ++ (if normalize e m > (3/4 : Rat) then " (high impact)"
        else if normalize e m > (9/20 : Rat) then " (moderate impact)"
        else " (low impact)") := by
  show (if normalize e m > (3/4 : Rat) then e ++ " (high impact)"
    else if normalize e m > (9/20 : Rat) then e ++ " (moderate impact)"
    else e ++ " (low impact)") = _
  split_ifs <;> rfl

/-! ## Claims -/

/-- Claim C1: for every event type `e`, metadata `m` and normalizer
returning impact `x`, `security_hint_from_event` returns
`e ++ " (high impact)"` iff `x > 0.75`, `e ++ " (moderate impact)"` iff
`0.45 < x ≤ 0.75`, and `e ++ " (low impact)"` iff `x ≤ 0.45`; the
boundary values `0.75` and `0.45` fall into the lower bucket. -/
theorem security_hint_classification
    (normalize : String → Metadata → Rat) (e : String) (m : Metadata) (x : Rat)
    (h : normalize e m = x) :
    (security_hint_from_event normalize e m = e ++ " (high impact)" ↔ x > (3/4 : Rat)) ∧
    (security_hint_from_event normalize e m = e ++ " (moderate impact)" ↔
      ((9/20 : Rat) < x ∧ x ≤ (3/4 : Rat))) ∧
    (security_hint_from_event normalize e m = e ++ " (low impact)" ↔ x ≤ (9/20 : Rat)) ∧
    (x = (3/4 : Rat) → security_hint_from_event normalize e m = e ++ " (moderate impact)") ∧
    (x = (9/20 : Rat) → security_hint_from_event normalize e m = e ++ " (low impact)") := by
  have hr := shfe_eq normalize e m
  rw [h] at hr
  have cancel : ∀ s t : String, (e ++ s = e ++ t) ↔ s = t :=
    fun s t => ⟨string_append_cancel_left, fun hc => by rw [hc]⟩
  rw [hr, cancel, cancel, cancel]
  split_ifs with h1 h2
  · exact ⟨by simp [h1], ⟨fun hc => absurd hc (by decide), fun hx => absurd h1 (by linarith)⟩,
      ⟨fun hc => absurd hc (by decide), fun hx => absurd h1 (by linarith)⟩,
      fun hx => absurd h1 (by rw [hx]; norm_num),
      fun hx => absurd h1 (by rw [hx]; norm_num)⟩
  · exact ⟨⟨fun hc => absurd hc (by decide), fun hx => absurd hx h1⟩,
      by simp [h2, le_of_not_lt h1],
      ⟨fun hc => absurd hc (by decide), fun hx => absurd h2 (by linarith)⟩,
      fun hx => rfl,
      fun hx => absurd h2 (by rw [hx]; norm_num)⟩
  · exact ⟨⟨fun hc => absurd hc (by decide), fun hx => absurd hx h1⟩,
      ⟨fun hc => absurd hc (by decide), fun hx => absurd hx.1 h2⟩,
      by simp [le_of_not_lt h2],
      fun hx => absurd hx (by intro he; rw [he] at h2; exact h2 (by norm_num)),
      fun hx => rfl⟩

/-- Witness for C1 at a concrete normalizer and impact 0.8. -/
theorem security_hint_classification_witness :
    (security_hint_from_event (fun _ _ => (4/5 : Rat)) "suspicious_tab_switch" [] =
        "suspicious_tab_switch" ++ " (high impact)" ↔ (4/5 : Rat) > (3/4 : Rat)) ∧
    (security_hint_from_event (fun _ _ => (4/5 : Rat)) "suspicious_tab_switch" [] =
        "suspicious_tab_switch" ++ " (moderate impact)" ↔
      ((9/20 : Rat) < (4/5 : Rat) ∧ (4/5 : Rat) ≤ (3/4 : Rat))) ∧
    (security_hint_from_event (fun _ _ => (4/5 : Rat)) "suspicious_tab_switch" [] =
        "suspicious_tab_switch" ++ " (low impact)" ↔ (4/5 : Rat) ≤ (9/20 : Rat)) ∧
    ((4/5 : Rat) = (3/4 : Rat) → security_hint_from_event (fun _ _ => (4/5 : Rat))
        "suspicious_tab_switch" [] = "suspicious_tab_switch" ++ " (moderate impact)") ∧
    ((4/5 : Rat) = (9/20 : Rat) → security_hint_from_event (fun _ _ => (4/5 : Rat))
        "suspicious_tab_switch" [] = "suspicious_tab_switch" ++ " (low impact)") :=
  security_hint_classification (fun _ _ => (4/5 : Rat)) "suspicious_tab_switch" [] (4/5) rfl

/-- Claim C2: whenever the remote scoring call yields empty text or its
output fails to parse, `score` returns exactly the fixed baseline
result (all four numeric fields 7, fixed `Notes` string), for every
transcript, job title and company. -/
theorem score_baseline_on_failure (e : Engine) (gen : String → Except String String)
    (jsonLoads : String → Option Json) (t : List TranscriptEntry) (jt co : String)
    (hfail : llm_call e gen scoreSystemText (score_user_text t jt co) = "" ∨
      jsonLoads (llm_call e gen scoreSystemText (score_user_text t jt co)) = none) :
    score e gen jsonLoads t jt co = baselineScore := by
  have hs : score e gen jsonLoads t jt co =
      (if pyTruthy (llm_call e gen scoreSystemText (score_user_text t jt co)) then
        (match jsonLoads (llm_call e gen scoreSystemText (score_user_text t jt co)) with
          | some v => v
          | none => baselineScore)
      else baselineScore) := rfl
  rcases hfail with h | h
  · rw [hs, h]
    rfl
  · rw [hs, h]
    split <;> rfl

/-- Witness for C2: an engine whose remote call errors returns the baseline. -/
theorem score_baseline_on_failure_witness :
    score ⟨"offline", false⟩ (fun _ => Except.error "boom") (fun _ => none)
      [] "Backend Engineer" "Acme" = baselineScore :=
  score_baseline_on_failure ⟨"offline", false⟩ (fun _ => Except.error "boom")
    (fun _ => none) [] "Backend Engineer" "Acme" (Or.inl rfl)

/-- Claim C8: whenever the remote scoring call returns non-empty text that
parses successfully, `score` returns the decoded value exactly as
received (no clamping, no schema enforcement beyond parse success). -/
theorem score_returns_parsed (e : Engine) (gen : String → Except String String)
    (jsonLoads : String → Option Json) (t : List TranscriptEntry) (jt co : String)
    (v : Json)
    (hraw : llm_call e gen scoreSystemText (score_user_text t jt co) ≠ "")
    (hparse : jsonLoads (llm_call e gen scoreSystemText (score_user_text t jt co)) = some v) :
    score e gen jsonLoads t jt co = v := by
  have hs : score e gen jsonLoads t jt co =
      (if pyTruthy (llm_call e gen scoreSystemText (score_user_text t jt co)) then
        (match jsonLoads (llm_call e gen scoreSystemText (score_user_text t jt co)) with
          | some v => v
          | none => baselineScore)
      else baselineScore) := rfl
  have hT : pyTruthy (llm_call e gen scoreSystemText (score_user_text t jt co)) = true := by
    simp [pyTruthy, hraw]
  rw [hs, hT, if_pos rfl, hparse]

/-- Witness for C8: a succeeding remote call with a decodable payload is
returned unchanged. -/
theorem score_returns_parsed_witness :
    score ⟨"gemini", true⟩ (fun _ => Except.ok "3") (fun _ => some (Json.num 3))
      [] "Backend Engineer" "Acme" = Json.num 3 :=
  score_returns_parsed ⟨"gemini", true⟩ (fun _ => Except.ok "3")
    (fun _ => some (Json.num 3)) [] "Backend Engineer" "Acme" (Json.num 3)
    (by decide) rfl

/-- Claim C5: the remote-call wrapper is a total function (the embedding
of "never raises"): on any failure — offline mode, missing client, or an
exception from the remote capability — it returns the empty string, and
the empty string is exactly the signal on which the orchestrator takes
the offline fallback branch. -/
theorem llm_call_failure_empty (e : Engine) (gen : String → Except String String)
    (s u jt co pers rc : String) (pa : Option String) (ec : EmotionCtx)
    (sh : Option String)
    (hfail : e.mode ≠ "gemini" ∨ e.hasClient = false ∨
      ∃ err, gen (s ++ "\n\n" ++ u) = Except.error err) :
    llm_call e gen s u = "" ∧
    (llm_call e gen questionSystemText (user_text jt co (persona pers) rc pa ec sh) = "" →
      generate_question e gen jt co pers rc pa ec sh =
        offline_question jt (persona pers) rc pa ec sh) ∧
    (llm_call e gen questionSystemText (user_text jt co (persona pers) rc pa ec sh) ≠ "" →
      generate_question e gen jt co pers rc pa ec sh =
        llm_call e gen questionSystemText (user_text jt co (persona pers) rc pa ec sh)) := by
  have hg : generate_question e gen jt co pers rc pa ec sh =
      (if pyTruthy (llm_call e gen questionSystemText
          (user_text jt co (persona pers) rc pa ec sh)) then
        llm_call e gen questionSystemText (user_text jt co (persona pers) rc pa ec sh)
      else offline_question jt (persona pers) rc pa ec sh) := rfl
  refine ⟨?_, ?_, ?_⟩
  · rcases hfail with h | h | ⟨err, herr⟩
    · simp [llm_call, h]
    · simp [llm_call, h]
    · unfold llm_call
      split
      · rw [herr]
      · rfl
  · intro h
    rw [hg, h]
    rfl
  · intro h
    rw [hg, if_pos (by simp [pyTruthy, h])]

/-- Witness for C5 at an offline-mode engine and concrete call inputs. -/
theorem llm_call_failure_empty_witness :
    llm_call ⟨"offline", false⟩ (fun _ => Except.ok "hello") "s" "u" = "" ∧
    (llm_call ⟨"offline", false⟩ (fun _ => Except.ok "hello") questionSystemText
        (user_text "J" "C" (persona "Default Manager") "" none [] none) = "" →
      generate_question ⟨"offline", false⟩ (fun _ => Except.ok "hello")
          "J" "C" "Default Manager" "" none [] none =
        offline_question "J" (persona "Default Manager") "" none [] none) ∧
    (llm_call ⟨"offline", false⟩ (fun _ => Except.ok "hello") questionSystemText
        (user_text "J" "C" (persona "Default Manager") "" none [] none) ≠ "" →
      generate_question ⟨"offline", false⟩ (fun _ => Except.ok "hello")
          "J" "C" "Default Manager" "" none [] none =
        llm_call ⟨"offline", false⟩ (fun _ => Except.ok "hello") questionSystemText
          (user_text "J" "C" (persona "Default Manager") "" none [] none)) :=
  llm_call_failure_empty ⟨"offline", false⟩ (fun _ => Except.ok "hello")
    "s" "u" "J" "C" "Default Manager" "" none [] none (Or.inl (by decide))

/-- Claim C7: an engine constructed without an initializable remote
capability (no key, empty key, or failing client init) is permanently
offline: the wrapper returns empty for every capability behavior, every
question call returns the offline-synthesized question, and every
scoring call returns the baseline score; construction is total. -/
theorem initEngine_offline_permanent (key : Option String) (ic : Except String Unit)
    (gen : String → Except String String) (jsonLoads : String → Option Json)
    (s u jt co pers rc : String) (pa : Option String) (ec : EmotionCtx)
    (sh : Option String) (t : List TranscriptEntry)
    (hfail : pyTruthyOpt key = false ∨ ∃ err, ic = Except.error err) :
    (initEngine key ic).mode = "offline" ∧
    (initEngine key ic).hasClient = false ∧
    llm_call (initEngine key ic) gen s u = "" ∧
    generate_question (initEngine key ic) gen jt co pers rc pa ec sh =
      offline_question jt (persona pers) rc pa ec sh ∧
    score (initEngine key ic) gen jsonLoads t jt co = baselineScore := by
  have he : initEngine key ic = ⟨"offline", false⟩ := by
    rcases hfail with h | ⟨err, herr⟩
    · unfold initEngine
      rw [h]
      rfl
    · unfold initEngine
      rw [herr]
      split <;> rfl
  rw [he]
  exact ⟨rfl, rfl, rfl, rfl, rfl⟩

/-- Witness for C7 with an unset key. -/
theorem initEngine_offline_permanent_witness :
    (initEngine none (Except.ok ())).mode = "offline" ∧
    (initEngine none (Except.ok ())).hasClient = false ∧
    llm_call (initEngine none (Except.ok ())) (fun _ => Except.ok "hi") "s" "u" = "" ∧
    generate_question (initEngine none (Except.ok ())) (fun _ => Except.ok "hi")
      "J" "C" "Default Manager" "" none [] none =
      offline_question "J" (persona "Default Manager") "" none [] none ∧
    score (initEngine none (Except.ok ())) (fun _ => Except.ok "hi") (fun _ => none)
      [] "J" "C" = baselineScore :=
  initEngine_offline_permanent none (Except.ok ()) (fun _ => Except.ok "hi")
    (fun _ => none) "s" "u" "J" "C" "Default Manager" "" none [] none []
    (Or.inl rfl)

/-- Claim C10: a successful remote generation returning whitespace-only
text is treated exactly like a failure: the wrapper strips it to the
empty string and the question path returns the offline-synthesized
question. -/
theorem whitespace_output_offline (e : Engine) (gen : String → Except String String)
    (jt co pers rc : String) (pa : Option String) (ec : EmotionCtx)
    (sh : Option String) (t : String)
    (hgen : gen (questionSystemText ++ "\n\n" ++
      user_text jt co (persona pers) rc pa ec sh) = Except.ok t)
    (hws : t.data.all pyIsSpace = true) :
    llm_call e gen questionSystemText (user_text jt co (persona pers) rc pa ec sh) = "" ∧
    generate_question e gen jt co pers rc pa ec sh =
      offline_question jt (persona pers) rc pa ec sh := by
  have hllm : llm_call e gen questionSystemText
      (user_text jt co (persona pers) rc pa ec sh) = "" := by
    unfold llm_call
    split
    · rw [hgen]
      exact pyStrip_eq_empty hws
    · rfl
  refine ⟨hllm, ?_⟩
  have hg : generate_question e gen jt co pers rc pa ec sh =
      (if pyTruthy (llm_call e gen questionSystemText
          (user_text jt co (persona pers) rc pa ec sh)) then
        llm_call e gen questionSystemText (user_text jt co (persona pers) rc pa ec sh)
      else offline_question jt (persona pers) rc pa ec sh) := rfl
  rw [hg, hllm]
  rfl

/-- Witness for C10: a gemini-mode engine whose capability returns
whitespace falls back to the offline question. -/
theorem whitespace_output_offline_witness :
    llm_call ⟨"gemini", true⟩ (fun _ => Except.ok "  \n ") questionSystemText
      (user_text "J" "C" (persona "Default Manager") "" none [] none) = "" ∧
    generate_question ⟨"gemini", true⟩ (fun _ => Except.ok "  \n ")
      "J" "C" "Default Manager" "" none [] none =
      offline_question "J" (persona "Default Manager") "" none [] none :=
  whitespace_output_offline ⟨"gemini", true⟩ (fun _ => Except.ok "  \n ")
    "J" "C" "Default Manager" "" none [] none "  \n " rfl (by decide)

/-- Claim C3: every offline-synthesized question ends with exactly one
closing question chosen by priority — prior answer present → deep-dive
with outcomes; else retrieval context present → directly matching
experience; else the generic "challenging project" opener — and with
all optional inputs absent the result is non-empty and ends in the
generic question. -/
theorem offline_question_closing (jt : String) (p : Persona) (rc : String)
    (pa : Option String) (ec : EmotionCtx) (sh : Option String) :
    (∃ b, offline_question jt p rc pa ec sh = b ++ closingFor pa rc) ∧
    (pyTruthyOpt pa = true → closingFor pa rc = deepDiveClose) ∧
    (pyTruthyOpt pa = false → pyTruthy rc = true → closingFor pa rc = matchRoleClose) ∧
    (pyTruthyOpt pa = false → pyTruthy rc = false → closingFor pa rc = challengingClose) ∧
    (∀ c b, c ∈ [deepDiveClose, matchRoleClose, challengingClose] →
      offline_question jt p rc pa ec sh = b ++ c → c = closingFor pa rc) ∧
    (pa = none → sh = none → rc = "" →
      offline_question jt p rc pa ec sh ≠ "" ∧
      ∃ b, offline_question jt p rc pa ec sh = b ++ challengingClose) := by
  have hchar := offline_question_eq jt p rc pa ec sh
  refine ⟨⟨offlineBase jt p ec sh, hchar⟩, ?_, ?_, ?_, ?_, ?_⟩
  · intro h
    unfold closingFor
    rw [h]
    rfl
  · intro h1 h2
    unfold closingFor
    rw [h1, h2]
    rfl
  · intro h1 h2
    unfold closingFor
    rw [h1, h2]
    rfl
  · intro c b hc heq
    exact close_unique hc (closingFor_mem pa rc) (heq.symm.trans hchar)
  · intro hpa hsh hrc
    subst hpa hsh hrc
    constructor
    · intro hempty
      rw [hchar] at hempty
      have hd := congrArg String.data hempty
      simp only [String.data_append] at hd
      have := List.append_eq_nil.mp hd
      exact absurd (congrArg List.length this.2) (by decide)
    · exact ⟨offlineBase jt p ec none, hchar⟩

/-- Witness for C3 with all optional inputs absent. -/
theorem offline_question_closing_witness :
    offline_question "Engineer" defaultManagerPreset "" none [] none ≠ "" ∧
    ∃ b, offline_question "Engineer" defaultManagerPreset "" none [] none =
      b ++ challengingClose :=
  (offline_question_closing "Engineer" defaultManagerPreset "" none [] none).2.2.2.2.2
    rfl rfl rfl

/-- Claim C9: the offline question synthesizer is deterministic and pure:
two invocations on identical inputs produce the identical string. -/
theorem offline_question_deterministic (jt1 jt2 : String) (p1 p2 : Persona)
    (rc1 rc2 : String) (pa1 pa2 : Option String) (ec1 ec2 : EmotionCtx)
    (sh1 sh2 : Option String)
    (h1 : jt1 = jt2) (h2 : p1 = p2) (h3 : rc1 = rc2) (h4 : pa1 = pa2)
    (h5 : ec1 = ec2) (h6 : sh1 = sh2) :
    offline_question jt1 p1 rc1 pa1 ec1 sh1 = offline_question jt2 p2 rc2 pa2 ec2 sh2 := by
  subst h1 h2 h3 h4 h5 h6
  rfl

/-- Witness for C9 at concrete inputs. -/
theorem offline_question_deterministic_witness :
    offline_question "Engineer" defaultManagerPreset "ctx" (some "ans")
      [("nervous", 1)] (some "hint") =
    offline_question "Engineer" defaultManagerPreset "ctx" (some "ans")
      [("nervous", 1)] (some "hint") :=
  offline_question_deterministic "Engineer" "Engineer" defaultManagerPreset
    defaultManagerPreset "ctx" "ctx" (some "ans") (some "ans")
    [("nervous", 1)] [("nervous", 1)] (some "hint") (some "hint")
    rfl rfl rfl rfl rfl rfl

/-- Claim C6: the user text assembled for question generation is exactly
the join (with blank lines) of the present fields in the spec's order:
job/company line; persona line; retrieval context truncated to its
first 2000 characters and omitted entirely when empty; prior answer
omitted when absent; emotion context omitted when empty; security hint
omitted when absent; then the closing instruction — absent inputs
contribute no text at all. -/
theorem user_text_is_present_fields (job_title company : String) (p : Persona)
    (rag_context : String) (prev_answer : Option String) (emotion_ctx : EmotionCtx)
    (security_hint : Option String) :
    user_text job_title company p rag_context prev_answer emotion_ctx security_hint =
      String.intercalate "\n\n"
        (spec_user_parts job_title company p rag_context prev_answer emotion_ctx
          security_hint) := by
  unfold user_text spec_user_parts
  by_cases h1 : pyTruthy rag_context = true <;>
    by_cases h2 : pyTruthyOpt prev_answer = true <;>
    by_cases h3 : emotion_ctx = [] <;>
    by_cases h4 : pyTruthyOpt security_hint = true <;>
    simp [h1, h2, h3, h4]

/-- Claim C4: with the remote capability returning empty text, an
unknown persona name resolves to the default preset with tone
"professional", so `first_question "Backend Engineer" "Acme"
"Unknown Persona" ""` is the professional greeting followed by the
generic opener (given that the resolved emotion context reports no
nervousness above 0.5, the spec's default). -/
theorem first_question_unknown_persona (e : Engine)
    (gen : String → Except String String) (primary fallback : String → EmotionCtx)
    (hgen : ∀ q, gen q = Except.ok "")
    (hn : ecGet (emotion_ctx_of primary fallback "seed") "nervous" 0 ≤ (1/2 : Rat)) :
    first_question e gen primary fallback "Backend Engineer" "Acme" "Unknown Persona" "" =
      "As a professional interviewer for a Backend Engineer, " ++ challengingClose ∧
    ∃ rest, first_question e gen primary fallback "Backend Engineer" "Acme"
      "Unknown Persona" "" =
      "As a professional interviewer for a Backend Engineer, " ++ rest := by
  have hllm : ∀ s u, llm_call e gen s u = "" := by
    intro s u
    unfold llm_call
    split
    · rw [hgen]
      rfl
    · rfl
  have hg : first_question e gen primary fallback "Backend Engineer" "Acme"
      "Unknown Persona" "" =
      (if pyTruthy (llm_call e gen questionSystemText
          (user_text "Backend Engineer" "Acme" (persona "Unknown Persona") ""
            none (emotion_ctx_of primary fallback "seed") none)) then
        llm_call e gen questionSystemText
          (user_text "Backend Engineer" "Acme" (persona "Unknown Persona") ""
            none (emotion_ctx_of primary fallback "seed") none)
      else offline_question "Backend Engineer" (persona "Unknown Persona") ""
        none (emotion_ctx_of primary fallback "seed") none) := rfl
  have hbase : offlineBase "Backend Engineer" (persona "Unknown Persona")
      (emotion_ctx_of primary fallback "seed") none =
      "As a professional interviewer for a Backend Engineer, " := by
    show (if ecGet (emotion_ctx_of primary fallback "seed") "nervous" 0 > (1/2 : Rat) then
        "As a " ++ (persona "Unknown Persona").tone ++ " interviewer for a " ++
          "Backend Engineer" ++ ", " ++ "I\x27ll keep it supportive. "
      else "As a " ++ (persona "Unknown Persona").tone ++ " interviewer for a " ++
        "Backend Engineer" ++ ", ") =
      "As a professional interviewer for a Backend Engineer, "
    rw [if_neg (not_lt.mpr hn)]
    rfl
  have hmain : first_question e gen primary fallback "Backend Engineer" "Acme"
      "Unknown Persona" "" =
      "As a professional interviewer for a Backend Engineer, " ++ challengingClose := by
    rw [hg, hllm]
    show offline_question "Backend Engineer" (persona "Unknown Persona") ""
      none (emotion_ctx_of primary fallback "seed") none = _
    rw [offline_question_eq, hbase]
    rfl
  exact ⟨hmain, challengingClose, hmain⟩

/-- Witness for C4 with empty providers and an always-empty capability. -/
theorem first_question_unknown_persona_witness :
    first_question ⟨"offline", false⟩ (fun _ => Except.ok "") (fun _ => [])
      (fun _ => []) "Backend Engineer" "Acme" "Unknown Persona" "" =
      "As a professional interviewer for a Backend Engineer, " ++ challengingClose ∧
    ∃ rest, first_question ⟨"offline", false⟩ (fun _ => Except.ok "") (fun _ => [])
      (fun _ => []) "Backend Engineer" "Acme" "Unknown Persona" "" =
      "As a professional interviewer for a Backend Engineer, " ++ rest :=
  first_question_unknown_persona ⟨"offline", false⟩ (fun _ => Except.ok "")
    (fun _ => []) (fun _ => []) (fun _ => rfl)
    (by simp [emotion_ctx_of, ecGet])

end FortiTwin
